import Mathlib

/-!
# Verification of the http-dataserve pagination and record-synthesis engine

Shallow embedding of `src/main.py` of the `http-dataserve` service: the
pagination arithmetic of the `/api/data` and `/api/data-with-date-formats`
endpoints, the synthetic-record generators, the boundary validation declared
on the query parameters, and the `/api/schema` document.

Modelling conventions:
* Python's `random` module is an explicit stream of raw natural-number draws
  (`Rng`); each primitive (`randint`, `choice`, `sample`, `uniform`, ...)
  consumes draws from the stream and returns the advanced stream.
* Python floats are modelled as rationals; `random.uniform` draws at
  one-in-a-million resolution (no claim depends on the distribution).
* `datetime.now()` is an explicit `PyDateTime` argument `now`; the local-time
  offset used by `datetime.timestamp()` is an explicit integer argument `tz`
  (seconds east of UTC).  Dates and times follow Python's proleptic-Gregorian
  rules (`date.toordinal`, leap years, field ranges).
* Strings are Lean `String`s; `strftime`/`isoformat` renderings are built
  from zero-padded decimal digit lists exactly as CPython renders them.
-/

/-- A pseudo-random source: an infinite stream of raw natural-number draws.
Models the `random` module as an injectable dependency. -/
def Rng : Type := Nat → Nat

/-- Consume one raw draw from the stream. -/
def Rng.next (r : Rng) : Nat × Rng := (r 0, fun n => r (n + 1))

/-- `random.randint(a, b)`: uniform integer in `[a, b]`, both endpoints
included. -/
def randint (a b : Nat) (r : Rng) : Nat × Rng :=
  let (n, r') := r.next
  (a + n % (b - a + 1), r')

/-- `random.choice(l)`: an element of `l` at a uniformly drawn index. -/
def randchoice {α : Type} [Inhabited α] (l : List α) (r : Rng) : α × Rng :=
  let (n, r') := r.next
  (l.getD (n % l.length) default, r')

/-- `random.choices(l, k=k)`: `k` independent draws with replacement. -/
def randchoices {α : Type} [Inhabited α] (l : List α) : Nat → Rng → List α × Rng
  | 0, r => ([], r)
  | k + 1, r =>
    let (x, r1) := randchoice l r
    let (rest, r2) := randchoices l k r1
    (x :: rest, r2)

/-- `random.sample(l, k)`: `k` elements drawn without replacement (each draw
picks a remaining element at a random index and removes it). -/
def randsample {α : Type} [Inhabited α] (l : List α) (k : Nat) (r : Rng) :
    List α × Rng :=
  match k, l with
  | 0, _ => ([], r)
  | _ + 1, [] => ([], r)
  | k' + 1, l'@(_ :: _) =>
    let (n, r1) := r.next
    let i := n % l'.length
    let (rest, r2) := randsample (l'.eraseIdx i) k' r1
    (l'.getD i default :: rest, r2)

/-- `random.uniform(a, b)`: a draw in `[a, b]`, modelled at one-in-a-million
resolution on rationals. -/
def randuniform (a b : ℚ) (r : Rng) : ℚ × Rng :=
  let (n, r') := r.next
  (a + (b - a) * ((n % 1000001 : Nat) : ℚ) / 1000000, r')

/-- Python `round(x, 2)` on the rational model of floats. -/
def round2 (q : ℚ) : ℚ := ((round (q * 100) : ℤ) : ℚ) / 100

/-! ## Dates and times (Python `datetime` semantics) -/

/-- A `datetime.date` value. -/
structure PyDate where
  year : Nat
  month : Nat
  day : Nat
deriving Repr, DecidableEq

/-- A naive `datetime.datetime` value. -/
structure PyDateTime where
  year : Nat
  month : Nat
  day : Nat
  hour : Nat
  minute : Nat
  second : Nat
  microsecond : Nat
deriving Repr, DecidableEq

/-- Gregorian leap-year rule, as implemented by Python's `datetime`. -/
def isLeapYear (y : Nat) : Bool := y % 4 == 0 && (y % 100 != 0 || y % 400 == 0)

/-- Number of days in month `m` of year `y` (Python `datetime` rules). -/
def daysInMonth (y m : Nat) : Nat :=
  if m = 2 then (if isLeapYear y then 29 else 28)
  else if m = 4 ∨ m = 6 ∨ m = 9 ∨ m = 11 then 30
  else 31

/-- The field values accepted by the `datetime.date` constructor; outside
this domain the constructor raises `ValueError`. -/
def PyDate.isValid (d : PyDate) : Bool :=
  1 ≤ d.year && d.year ≤ 9999 && 1 ≤ d.month && d.month ≤ 12 &&
    1 ≤ d.day && d.day ≤ daysInMonth d.year d.month

/-- The field values accepted by the `datetime.datetime` constructor and by
`datetime.replace`. -/
def PyDateTime.isValid (dt : PyDateTime) : Bool :=
  PyDate.isValid ⟨dt.year, dt.month, dt.day⟩ && dt.hour ≤ 23 &&
    dt.minute ≤ 59 && dt.second ≤ 59 && dt.microsecond ≤ 999999

/-- Days before January 1 of year `y` in the proleptic Gregorian calendar
(as in CPython's `datetime._days_before_year`). -/
def daysBeforeYear (y : Nat) : Nat :=
  365 * (y - 1) + (y - 1) / 4 - (y - 1) / 100 + (y - 1) / 400

/-- Days in year `y` strictly before month `m`. -/
def daysBeforeMonth (y m : Nat) : Nat :=
  ((List.range (m - 1)).map (fun i => daysInMonth y (i + 1))).sum

/-- `date.toordinal()`: day number with `0001-01-01` mapped to `1`. -/
def toOrdinal (d : PyDate) : Nat :=
  daysBeforeYear d.year + daysBeforeMonth d.year d.month + d.day

/-- Seconds since the Unix epoch of a naive datetime interpreted in a local
zone `tz` seconds east of UTC, at second precision (`719163` is the ordinal
of `1970-01-01`). -/
def epochSeconds (dt : PyDateTime) (tz : Int) : Int :=
  ((toOrdinal ⟨dt.year, dt.month, dt.day⟩ : Int) - 719163) * 86400
    + dt.hour * 3600 + dt.minute * 60 + dt.second - tz

/-- `int(dt.timestamp())`: `dt.timestamp()` is the exact epoch value
`epochSeconds + microsecond/10^6` and `int` truncates toward zero. -/
def timestampInt (dt : PyDateTime) (tz : Int) : Int :=
  (epochSeconds dt tz * 1000000 + dt.microsecond).tdiv 1000000

/-! ## Decimal renderings (`strftime` / `isoformat`) -/

/-- Big-endian zero-padded `k`-digit decimal rendering of `n % 10^k`, the
digit grouping CPython uses for `%Y`, `%m`, `%d`, `%H`, `%M`, `%S`, `%f`. -/
def padN : Nat → Nat → List Char
  | 0, _ => []
  | k + 1, n => Nat.digitChar (n / 10 ^ k % 10) :: padN k n

/-- Big-endian zero-padded `k`-digit hexadecimal rendering of `n % 16^k`. -/
def padHexN : Nat → Nat → List Char
  | 0, _ => []
  | k + 1, n => Nat.digitChar (n / 16 ^ k % 16) :: padHexN k n

/-- Full month names used by `strftime("%B")`. -/
def monthNames : List String :=
  ["January", "February", "March", "April", "May", "June",
   "July", "August", "September", "October", "November", "December"]

/-- Abbreviated month names used by `strftime("%b")`. -/
def monthAbbrevs : List String :=
  ["Jan", "Feb", "Mar", "Apr", "May", "Jun",
   "Jul", "Aug", "Sep", "Oct", "Nov", "Dec"]

/-- Abbreviated weekday names used by `strftime("%a")`, Monday first. -/
def dayAbbrevs : List String := ["Mon", "Tue", "Wed", "Thu", "Fri", "Sat", "Sun"]

/-- `date.isoformat()`: `YYYY-MM-DD`. -/
def PyDate.isoformat (d : PyDate) : String :=
  ⟨padN 4 d.year ++ '-' :: padN 2 d.month ++ '-' :: padN 2 d.day⟩

/-- `date.strftime("%m/%d/%Y")`: `MM/DD/YYYY`. -/
def PyDate.usFormat (d : PyDate) : String :=
  ⟨padN 2 d.month ++ '/' :: padN 2 d.day ++ '/' :: padN 4 d.year⟩

/-- `date.strftime("%d/%m/%Y")`: `DD/MM/YYYY`. -/
def PyDate.euFormat (d : PyDate) : String :=
  ⟨padN 2 d.day ++ '/' :: padN 2 d.month ++ '/' :: padN 4 d.year⟩

/-- `date.strftime("%B %d, %Y")`: e.g. `June 05, 1987`. -/
def PyDate.longFormat (d : PyDate) : String :=
  ⟨(monthNames.getD (d.month - 1) "").data ++
    ' ' :: padN 2 d.day ++ ',' :: ' ' :: padN 4 d.year⟩

/-- `date.weekday()`: Monday is `0` (`0001-01-01`, ordinal `1`, is a Monday). -/
def PyDate.weekday (d : PyDate) : Nat := (toOrdinal d + 6) % 7

/-- `datetime.isoformat()`: `YYYY-MM-DDTHH:MM:SS`, with `.ffffff` appended
exactly when the microsecond field is nonzero. -/
def PyDateTime.isoformat (dt : PyDateTime) : String :=
  ⟨padN 4 dt.year ++ '-' :: padN 2 dt.month ++ '-' :: padN 2 dt.day ++
    'T' :: padN 2 dt.hour ++ ':' :: padN 2 dt.minute ++ ':' :: padN 2 dt.second ++
    (if dt.microsecond = 0 then [] else '.' :: padN 6 dt.microsecond)⟩

/-- `datetime.strftime("%a, %b %d %Y %I:%M %p")`:
e.g. `Mon, Dec 25 2023 10:30 AM`. -/
def PyDateTime.readableFormat (dt : PyDateTime) : String :=
  let wd := PyDate.weekday ⟨dt.year, dt.month, dt.day⟩
  let hr12 := if dt.hour % 12 = 0 then 12 else dt.hour % 12
  let ampm := if dt.hour < 12 then "AM" else "PM"
  ⟨(dayAbbrevs.getD wd "").data ++ ',' :: ' ' ::
    (monthAbbrevs.getD (dt.month - 1) "").data ++
    ' ' :: padN 2 dt.day ++ ' ' :: padN 4 dt.year ++
    ' ' :: padN 2 hr12 ++ ':' :: padN 2 dt.minute ++ ' ' :: ampm.data⟩

/-! ## Decoders for the rendered date strings

A client decodes a rendering by parsing the digit groups back; these are the
inverse readers for each of the formats above. -/

/-- Read one decimal digit. -/
def parseDigit : List Char → Option (Nat × List Char)
  | [] => none
  | c :: rest => if c.isDigit then some (c.toNat - 48, rest) else none

/-- Read exactly `k` decimal digits as a number. -/
def parseN : Nat → List Char → Option (Nat × List Char)
  | 0, l => some (0, l)
  | k + 1, l => do
    let (d, l1) ← parseDigit l
    let (rest, l2) ← parseN k l1
    pure (d * 10 ^ k + rest, l2)

/-- Read one expected literal character. -/
def parseLit (c : Char) : List Char → Option (List Char)
  | [] => none
  | x :: rest => if x = c then some rest else none

/-- Split at the first space: the word before it and the remainder after. -/
def breakAtSpace : List Char → Option (List Char × List Char)
  | [] => none
  | c :: rest =>
    if c = ' ' then some ([], rest)
    else (breakAtSpace rest).map (fun p => (c :: p.1, p.2))

/-- Decode a `YYYY-MM-DD` rendering. -/
def decodeIsoDate (s : String) : Option PyDate := do
  let (y, l) ← parseN 4 s.data
  let l ← parseLit '-' l
  let (m, l) ← parseN 2 l
  let l ← parseLit '-' l
  let (d, l) ← parseN 2 l
  if l = [] then pure ⟨y, m, d⟩ else none

/-- Decode a `MM/DD/YYYY` rendering. -/
def decodeUsDate (s : String) : Option PyDate := do
  let (m, l) ← parseN 2 s.data
  let l ← parseLit '/' l
  let (d, l) ← parseN 2 l
  let l ← parseLit '/' l
  let (y, l) ← parseN 4 l
  if l = [] then pure ⟨y, m, d⟩ else none

/-- Decode a `DD/MM/YYYY` rendering. -/
def decodeEuDate (s : String) : Option PyDate := do
  let (d, l) ← parseN 2 s.data
  let l ← parseLit '/' l
  let (m, l) ← parseN 2 l
  let l ← parseLit '/' l
  let (y, l) ← parseN 4 l
  if l = [] then pure ⟨y, m, d⟩ else none

/-- Decode a `Month DD, YYYY` rendering: the word before the first space is
looked up in the month-name table. -/
def decodeLongDate (s : String) : Option PyDate := do
  let (w, l) ← breakAtSpace s.data
  let idx := monthNames.indexOf ⟨w⟩
  if idx < 12 then
    let (d, l) ← parseN 2 l
    let l ← parseLit ',' l
    let l ← parseLit ' ' l
    let (y, l) ← parseN 4 l
    if l = [] then pure ⟨y, idx + 1, d⟩ else none
  else none

/-- Decode an `isoformat` datetime rendering at second precision: any
`.ffffff` fractional part is validated and discarded. -/
def decodeIsoDateTime (s : String) : Option PyDateTime := do
  let (y, l) ← parseN 4 s.data
  let l ← parseLit '-' l
  let (mo, l) ← parseN 2 l
  let l ← parseLit '-' l
  let (d, l) ← parseN 2 l
  let l ← parseLit 'T' l
  let (h, l) ← parseN 2 l
  let l ← parseLit ':' l
  let (mi, l) ← parseN 2 l
  let l ← parseLit ':' l
  let (se, l) ← parseN 2 l
  if l = [] then pure ⟨y, mo, d, h, mi, se, 0⟩
  else
    match parseLit '.' l with
    | some frac =>
      if frac.length = 6 ∧ frac.all Char.isDigit then pure ⟨y, mo, d, h, mi, se, 0⟩
      else none
    | none => none

/-! ## Fixed vocabularies (`src/main.py` lines 79-107) -/

/-- The tag vocabulary of `generate_random_tags`. -/
def all_tags : List String :=
  ["python", "javascript", "api", "web", "mobile", "data", "ai", "ml",
   "backend", "frontend", "database", "cloud", "devops", "security"]

/-- The skills vocabulary sampled in `generate_random_metadata`. -/
def skillsVocab : List String := ["Python", "Java", "React", "Node.js", "SQL", "Docker"]

/-- The department vocabulary of `generate_random_metadata`. -/
def departments : List String := ["Engineering", "Marketing", "Sales", "HR", "Finance"]

/-- The location vocabulary of `generate_random_metadata`. -/
def locations : List String := ["New York", "San Francisco", "London", "Tokyo", "Berlin"]

/-- The domain list of `generate_random_email`. -/
def emailDomains : List String :=
  ["gmail.com", "yahoo.com", "hotmail.com", "example.com", "test.org"]

/-- `string.ascii_letters + string.digits`, the population of
`generate_random_string`. -/
def alphanumChars : List Char :=
  ("abcdefghijklmnopqrstuvwxyzABCDEFGHIJKLMNOPQRSTUVWXYZ0123456789").data

/-! ## Field generators (`src/main.py` lines 79-107) -/

/-- `generate_random_string(length)`. -/
def generate_random_string (length : Nat) (r : Rng) : String × Rng :=
  let (cs, r') := randchoices alphanumChars length r
  (⟨cs⟩, r')

/-- `generate_random_email()`: lower-cased random local part, then a random
domain. -/
def generate_random_email (r : Rng) : String × Rng :=
  let (u, r1) := generate_random_string 8 r
  let username : String := ⟨u.data.map Char.toLower⟩
  let (domain, r2) := randchoice emailDomains r1
  (username ++ "@" ++ domain, r2)

/-- `generate_random_tags()`: a sample of `randint(1,5)` tags. -/
def generate_random_tags (r : Rng) : List String × Rng :=
  let (num_tags, r1) := randint 1 5 r
  randsample all_tags num_tags r1

/-- The metadata object built by `generate_random_metadata`. -/
structure Metadata where
  department : String
  location : String
  experience_years : Nat
  skills : List String
  certification : Bool
  last_login : String
deriving Repr, DecidableEq

/-- `generate_random_metadata()`; `now` stands for the `datetime.now()` call
that fills `last_login`. -/
def generate_random_metadata (now : PyDateTime) (r : Rng) : Metadata × Rng :=
  let (dep, r1) := randchoice departments r
  let (loc, r2) := randchoice locations r1
  let (exp', r3) := randint 1 20 r2
  let (k, r4) := randint 2 4 r3
  let (sk, r5) := randsample skillsVocab k r4
  let (cert, r6) := randchoice [true, false] r5
  ({ department := dep, location := loc, experience_years := exp', skills := sk,
     certification := cert, last_login := now.isoformat }, r6)

/-- `str(uuid.uuid4())`: 32 random hexadecimal digits grouped 8-4-4-4-12. -/
def uuid4 (r : Rng) : String × Rng :=
  let (n, r') := r.next
  let h := padHexN 32 n
  (⟨h.take 8 ++ '-' :: ((h.drop 8).take 4) ++ '-' :: ((h.drop 12).take 4) ++
    '-' :: ((h.drop 16).take 4) ++ '-' :: h.drop 20⟩, r')

/-- The `score` field: `round(random.uniform(0.0, 100.0), 2)` when a random
boolean says so, else `None` (the condition is drawn first). -/
def genScore (r : Rng) : Option ℚ × Rng :=
  let (b, r1) := randchoice [true, false] r
  if b then
    let (v, r2) := randuniform 0 100 r1
    (some (round2 v), r2)
  else (none, r1)

/-- The `description` field: a template string embedding the identity when a
random boolean says so, else `None`. -/
def genDescription (id : Nat) (r : Rng) : Option String × Rng :=
  let (b, r1) := randchoice [true, false] r
  (if b then some ("This is a sample description for user " ++ toString id) else none, r1)

/-! ## Record synthesizers (`src/main.py` lines 109-174) -/

/-- The standard record shape (`DataObject` in `src/main.py`). -/
structure DataObject where
  id : Nat
  uuid : String
  name : String
  email : String
  age : Nat
  height : ℚ
  weight : ℚ
  is_active : Bool
  balance : ℚ
  birth_date : String
  created_at : String
  tags : List String
  metadata : Metadata
  score : Option ℚ
  description : Option String
deriving Repr

/-- The multi-date record shape (`DataObjectWithDifferentDates`). -/
structure DataObjectWithDifferentDates where
  id : Nat
  uuid : String
  name : String
  email : String
  age : Nat
  height : ℚ
  weight : ℚ
  is_active : Bool
  balance : ℚ
  birth_date_iso : String
  birth_date_us : String
  birth_date_eu : String
  birth_date_long : String
  created_at_iso : String
  created_at_timestamp : Int
  created_at_readable : String
  tags : List String
  metadata : Metadata
  score : Option ℚ
  description : Option String
deriving Repr

/-- The birth `date` drawn by both synthesizers:
`date(randint(1940,2005), randint(1,12), randint(1,28))`. -/
def genBirthDate (r : Rng) : PyDate × Rng :=
  let (by', r1) := randint 1940 2005 r
  let (bm, r2) := randint 1 12 r1
  let (bd, r3) := randint 1 28 r2
  (⟨by', bm, bd⟩, r3)

/-- The created `datetime` drawn by the multi-date synthesizer:
`datetime.now().replace(year=randint(2020,2024), month=randint(1,12),
day=randint(1,28), hour=randint(0,23), minute=randint(0,59))`; the second
and microsecond fields keep their `now` values. -/
def genCreatedDateTime (now : PyDateTime) (r : Rng) : PyDateTime × Rng :=
  let (cy, r1) := randint 2020 2024 r
  let (cm, r2) := randint 1 12 r1
  let (cd, r3) := randint 1 28 r2
  let (ch, r4) := randint 0 23 r3
  let (cmi, r5) := randint 0 59 r4
  ({ year := cy, month := cm, day := cd, hour := ch, minute := cmi,
     second := now.second, microsecond := now.microsecond }, r5)

/-- `generate_data_object(id)`: one standard record.  Draws happen in the
source's keyword-argument order; `now` stands for the `datetime.now()`
calls. -/
def generate_data_object (id : Nat) (now : PyDateTime) (r : Rng) : DataObject × Rng :=
  let (u, r) := uuid4 r
  let (nm, r) := generate_random_string 6 r
  let (em, r) := generate_random_email r
  let (age, r) := randint 18 80 r
  let (h, r) := randuniform 150 200 r
  let (w, r) := randuniform 45 120 r
  let (act, r) := randchoice [true, false] r
  let (bal, r) := randuniform 0 100000 r
  let (bdate, r) := genBirthDate r
  let (tg, r) := generate_random_tags r
  let (md, r) := generate_random_metadata now r
  let (sc, r) := genScore r
  let (desc, r) := genDescription id r
  ({ id := id,
     uuid := u,
     name := "User " ++ nm,
     email := em,
     age := age,
     height := round2 h,
     weight := round2 w,
     is_active := act,
     balance := round2 bal,
     birth_date := bdate.isoformat,
     created_at := now.isoformat,
     tags := tg,
     metadata := md,
     score := sc,
     description := desc }, r)

/-- `generate_data_object_with_different_dates(id)`: one multi-date record.
The birth date and created datetime are drawn first, then the fields in the
source's keyword-argument order; `tz` is the local offset used by
`timestamp()`. -/
def generate_data_object_with_different_dates (id : Nat) (now : PyDateTime)
    (tz : Int) (r : Rng) : DataObjectWithDifferentDates × Rng :=
  let (birth_date_obj, r) := genBirthDate r
  let (created_datetime, r) := genCreatedDateTime now r
  let (u, r) := uuid4 r
  let (nm, r) := generate_random_string 6 r
  let (em, r) := generate_random_email r
  let (age, r) := randint 18 80 r
  let (h, r) := randuniform 150 200 r
  let (w, r) := randuniform 45 120 r
  let (act, r) := randchoice [true, false] r
  let (bal, r) := randuniform 0 100000 r
  let (tg, r) := generate_random_tags r
  let (md, r) := generate_random_metadata now r
  let (sc, r) := genScore r
  let (desc, r) := genDescription id r
  ({ id := id,
     uuid := u,
     name := "User " ++ nm,
     email := em,
     age := age,
     height := round2 h,
     weight := round2 w,
     is_active := act,
     balance := round2 bal,
     birth_date_iso := birth_date_obj.isoformat,
     birth_date_us := birth_date_obj.usFormat,
     birth_date_eu := birth_date_obj.euFormat,
     birth_date_long := birth_date_obj.longFormat,
     created_at_iso := created_datetime.isoformat,
     created_at_timestamp := timestampInt created_datetime tz,
     created_at_readable := created_datetime.readableFormat,
     tags := tg,
     metadata := md,
     score := sc,
     description := desc }, r)

/-! ## Pagination endpoints (`src/main.py` lines 1123-1223) -/

/-- The `/api/data` response envelope (`PaginatedResponse`). -/
structure PaginatedResponse where
  data : List DataObject
  total : Nat
  page : Nat
  page_size : Nat
  total_pages : Nat
  has_next : Bool
  has_previous : Bool
deriving Repr

/-- The `/api/data-with-date-formats` response envelope
(`PaginatedResponseWithDifferentDates`). -/
structure PaginatedResponseWithDifferentDates where
  data : List DataObjectWithDifferentDates
  total : Nat
  page : Nat
  page_size : Nat
  total_pages : Nat
  has_next : Bool
  has_previous : Bool
deriving Repr

/-- The generation loop `for i in range(start, end): data.append(f(i))`,
threading the random stream through the iterations. -/
def genList {α : Type} (f : Nat → Rng → α × Rng) : List Nat → Rng → List α × Rng
  | [], r => ([], r)
  | i :: is, r =>
    let (x, r1) := f i r
    let (xs, r2) := genList f is r1
    (x :: xs, r2)

/-- The body of `get_data` (`/api/data`), after boundary validation. -/
def get_data (page page_size total_records : Nat) (now : PyDateTime) (r : Rng) :
    PaginatedResponse × Rng :=
  let total_items := total_records
  let total_pages := (total_items + page_size - 1) / page_size
  let start_index := (page - 1) * page_size
  let end_index := min (start_index + page_size) total_items
  let (data, r') := genList (fun i => generate_data_object (i + 1) now)
    (List.range' start_index (end_index - start_index)) r
  ({ data := data, total := total_items, page := page, page_size := page_size,
     total_pages := total_pages,
     has_next := decide (page < total_pages),
     has_previous := decide (page > 1) }, r')

/-- The body of `get_data_with_date_formats` (`/api/data-with-date-formats`),
after boundary validation. -/
def get_data_with_date_formats (page page_size total_records : Nat)
    (now : PyDateTime) (tz : Int) (r : Rng) :
    PaginatedResponseWithDifferentDates × Rng :=
  let total_items := total_records
  let total_pages := (total_items + page_size - 1) / page_size
  let start_index := (page - 1) * page_size
  let end_index := min (start_index + page_size) total_items
  let (data, r') := genList
    (fun i => generate_data_object_with_different_dates (i + 1) now tz)
    (List.range' start_index (end_index - start_index)) r
  ({ data := data, total := total_items, page := page, page_size := page_size,
     total_pages := total_pages,
     has_next := decide (page < total_pages),
     has_previous := decide (page > 1) }, r')

/-! ## Boundary validation (FastAPI `Query` constraints, lines 1124-1127 and
1179-1181: `page ge=1`, `page_size ge=1 le=100`, `total_records ge=1
le=10000`; FastAPI rejects a violation with HTTP 422 before the route body
runs) -/

/-- An HTTP-level outcome: a typed body or a client-error status. -/
inductive HttpOutcome (α : Type) where
  | ok (body : α)
  | clientError (status : Nat)
deriving Repr, DecidableEq

/-- The declared query constraints of both paginated endpoints. -/
def query_params_valid (page page_size total_records : Int) : Bool :=
  1 ≤ page && 1 ≤ page_size && page_size ≤ 100 &&
    1 ≤ total_records && total_records ≤ 10000

/-- The `/api/data` route with its boundary validation: out-of-range query
values are rejected with HTTP 422 and the route body never runs. -/
def handle_get_data (page page_size total_records : Int) (now : PyDateTime)
    (r : Rng) : HttpOutcome PaginatedResponse × Rng :=
  if query_params_valid page page_size total_records then
    let (resp, r') := get_data page.toNat page_size.toNat total_records.toNat now r
    (.ok resp, r')
  else (.clientError 422, r)

/-- The `/api/data-with-date-formats` route with its boundary validation. -/
def handle_get_data_with_date_formats (page page_size total_records : Int)
    (now : PyDateTime) (tz : Int) (r : Rng) :
    HttpOutcome PaginatedResponseWithDifferentDates × Rng :=
  if query_params_valid page page_size total_records then
    let (resp, r') := get_data_with_date_formats page.toNat page_size.toNat
      total_records.toNat now tz r
    (.ok resp, r')
  else (.clientError 422, r)

/-! ## The `/api/schema` document (`src/main.py` lines 1271-1297) -/

/-- A JSON value, for stating schema conformance of generated records. -/
inductive JValue where
  | null
  | jint (n : Int)
  | jnum (q : ℚ)
  | jstr (s : String)
  | jbool (b : Bool)
  | jarr (l : List JValue)
  | jobj (l : List (String × JValue))

/-- The keys of the `properties` object of the schema served by
`/api/schema`, in source order. -/
def schema_property_names : List String :=
  ["id", "uuid", "name", "email", "age", "height", "weight", "is_active",
   "balance", "birth_date", "created_at", "tags", "metadata", "score",
   "description"]

/-- The `required` array of the schema served by `/api/schema`. -/
def schema_required : List String :=
  ["id", "uuid", "name", "email", "age", "height", "weight", "is_active",
   "balance", "birth_date", "created_at", "tags", "metadata"]

/-- The `minimum` bound the schema declares for `age`. -/
def schema_age_minimum : Nat := 0

/-- The `maximum` bound the schema declares for `age`. -/
def schema_age_maximum : Nat := 150

/-- JSON serialization of the metadata object. -/
def Metadata.toJson (m : Metadata) : JValue :=
  .jobj [("department", .jstr m.department), ("location", .jstr m.location),
         ("experience_years", .jint m.experience_years),
         ("skills", .jarr (m.skills.map .jstr)),
         ("certification", .jbool m.certification),
         ("last_login", .jstr m.last_login)]

/-- JSON serialization of a standard record, as the field/value pairs of the
response object (pydantic serializes `None` as JSON `null`). -/
def DataObject.toJson (o : DataObject) : List (String × JValue) :=
  [("id", .jint o.id), ("uuid", .jstr o.uuid), ("name", .jstr o.name),
   ("email", .jstr o.email), ("age", .jint o.age), ("height", .jnum o.height),
   ("weight", .jnum o.weight), ("is_active", .jbool o.is_active),
   ("balance", .jnum o.balance), ("birth_date", .jstr o.birth_date),
   ("created_at", .jstr o.created_at), ("tags", .jarr (o.tags.map .jstr)),
   ("metadata", o.metadata.toJson),
   ("score", match o.score with | some q => .jnum q | none => .null),
   ("description", match o.description with | some s => .jstr s | none => .null)]

/-! ## Basic facts about the random primitives -/

theorem randint_ge (a b : Nat) (r : Rng) : a ≤ (randint a b r).1 := by
  simp [randint]

theorem randint_le {a b : Nat} (h : a ≤ b) (r : Rng) : (randint a b r).1 ≤ b := by
  have hpos : 0 < b - a + 1 := by omega
  have h2 := Nat.mod_lt (r 0) hpos
  simp only [randint, Rng.next]
  omega

theorem randsample_length {α : Type} [Inhabited α] (l : List α) (k : Nat) (r : Rng)
    (hk : k ≤ l.length) : ((randsample l k r).1).length = k := by
  induction k generalizing l r with
  | zero => simp [randsample]
  | succ k ih =>
    match l with
    | [] => simp at hk
    | a :: l' =>
      have hi : (Rng.next r).1 % (l'.length + 1) < l'.length + 1 :=
        Nat.mod_lt _ (by omega)
      have herase : (((a :: l').eraseIdx ((Rng.next r).1 % (l'.length + 1))).length) =
          l'.length := by
        rw [List.length_eraseIdx]
        simp [hi]
      simp only [randsample, List.length_cons]
      rw [ih _ _ ?_]
      rw [herase]
      simp only [List.length_cons] at hk
      omega

theorem randsample_subset {α : Type} [Inhabited α] (l : List α) (k : Nat) (r : Rng) :
    ∀ x ∈ (randsample l k r).1, x ∈ l := by
  induction k generalizing l r with
  | zero => simp [randsample]
  | succ k ih =>
    match l with
    | [] => simp [randsample]
    | a :: l' =>
      have hi : (Rng.next r).1 % (a :: l').length < (a :: l').length :=
        Nat.mod_lt _ (by simp)
      intro x hx
      simp only [randsample, List.mem_cons] at hx
      rcases hx with hx | hx
      · rw [hx, List.getD_eq_getElem _ _ hi]
        exact List.getElem_mem hi
      · exact (List.eraseIdx_sublist (a :: l') _).subset (ih _ _ _ hx)

theorem randsample_nodup {α : Type} [Inhabited α] (l : List α) (k : Nat) (r : Rng)
    (hl : l.Nodup) : ((randsample l k r).1).Nodup := by
  induction k generalizing l r with
  | zero => simp [randsample]
  | succ k ih =>
    match l with
    | [] => simp [randsample]
    | a :: l' =>
      have hi : (Rng.next r).1 % (a :: l').length < (a :: l').length :=
        Nat.mod_lt _ (by simp)
      simp only [randsample, List.nodup_cons]
      refine ⟨?_, ih _ _ ((List.eraseIdx_sublist (a :: l') _).nodup hl)⟩
      intro hmem
      have hsub := randsample_subset
        ((a :: l').eraseIdx ((Rng.next r).1 % (a :: l').length)) k _ _ hmem
      rw [List.getD_eq_getElem _ _ hi] at hsub
      rw [List.mem_eraseIdx_iff_getElem] at hsub
      obtain ⟨j, hj, hne, heq⟩ := hsub
      exact hne (hl.getElem_inj_iff.mp heq)

/-! ## Facts about the generation loop and the envelopes -/

theorem genList_length {α : Type} (f : Nat → Rng → α × Rng) (l : List Nat) (r : Rng) :
    ((genList f l r).1).length = l.length := by
  induction l generalizing r with
  | nil => rfl
  | cons i is ih => simp [genList, ih]

theorem genList_map {α β : Type} (f : Nat → Rng → α × Rng) (proj : α → β)
    (g : Nat → β) (hf : ∀ i r, proj (f i r).1 = g i) (l : List Nat) (r : Rng) :
    ((genList f l r).1).map proj = l.map g := by
  induction l generalizing r with
  | nil => rfl
  | cons i is ih => simp [genList, hf, ih]

theorem generate_data_object_id (id : Nat) (now : PyDateTime) (r : Rng) :
    (generate_data_object id now r).1.id = id := rfl

theorem generate_data_object_with_different_dates_id (id : Nat) (now : PyDateTime)
    (tz : Int) (r : Rng) :
    (generate_data_object_with_different_dates id now tz r).1.id = id := rfl

theorem get_data_total (page page_size t : Nat) (now : PyDateTime) (r : Rng) :
    (get_data page page_size t now r).1.total = t := rfl

theorem get_data_page (page page_size t : Nat) (now : PyDateTime) (r : Rng) :
    (get_data page page_size t now r).1.page = page := rfl

theorem get_data_page_size (page page_size t : Nat) (now : PyDateTime) (r : Rng) :
    (get_data page page_size t now r).1.page_size = page_size := rfl

theorem get_data_total_pages (page page_size t : Nat) (now : PyDateTime) (r : Rng) :
    (get_data page page_size t now r).1.total_pages = (t + page_size - 1) / page_size := rfl

theorem get_data_has_next (page page_size t : Nat) (now : PyDateTime) (r : Rng) :
    (get_data page page_size t now r).1.has_next =
      decide (page < (t + page_size - 1) / page_size) := rfl

theorem get_data_has_previous (page page_size t : Nat) (now : PyDateTime) (r : Rng) :
    (get_data page page_size t now r).1.has_previous = decide (page > 1) := rfl

theorem get_data_data (page page_size t : Nat) (now : PyDateTime) (r : Rng) :
    (get_data page page_size t now r).1.data =
      (genList (fun i => generate_data_object (i + 1) now)
        (List.range' ((page - 1) * page_size)
          (min ((page - 1) * page_size + page_size) t - (page - 1) * page_size)) r).1 := rfl

theorem get_dwdf_total (page page_size t : Nat) (now : PyDateTime) (tz : Int) (r : Rng) :
    (get_data_with_date_formats page page_size t now tz r).1.total = t := rfl

theorem get_dwdf_page (page page_size t : Nat) (now : PyDateTime) (tz : Int) (r : Rng) :
    (get_data_with_date_formats page page_size t now tz r).1.page = page := rfl

theorem get_dwdf_page_size (page page_size t : Nat) (now : PyDateTime) (tz : Int)
    (r : Rng) :
    (get_data_with_date_formats page page_size t now tz r).1.page_size = page_size := rfl

theorem get_dwdf_total_pages (page page_size t : Nat) (now : PyDateTime) (tz : Int)
    (r : Rng) :
    (get_data_with_date_formats page page_size t now tz r).1.total_pages =
      (t + page_size - 1) / page_size := rfl

theorem get_dwdf_has_next (page page_size t : Nat) (now : PyDateTime) (tz : Int)
    (r : Rng) :
    (get_data_with_date_formats page page_size t now tz r).1.has_next =
      decide (page < (t + page_size - 1) / page_size) := rfl

theorem get_dwdf_has_previous (page page_size t : Nat) (now : PyDateTime) (tz : Int)
    (r : Rng) :
    (get_data_with_date_formats page page_size t now tz r).1.has_previous =
      decide (page > 1) := rfl

theorem get_dwdf_data (page page_size t : Nat) (now : PyDateTime) (tz : Int) (r : Rng) :
    (get_data_with_date_formats page page_size t now tz r).1.data =
      (genList (fun i => generate_data_object_with_different_dates (i + 1) now tz)
        (List.range' ((page - 1) * page_size)
          (min ((page - 1) * page_size + page_size) t - (page - 1) * page_size)) r).1 := rfl

/-- The integer pagination formula `(t + ps - 1) / ps` is the real ceiling of
`t / ps`. -/
theorem natCeilDiv_eq_rat_ceil (t ps : Nat) (hps : 0 < ps) :
    (((t + ps - 1) / ps : ℕ) : ℤ) = ⌈(t : ℚ) / (ps : ℚ)⌉ := by
  have hps' : (0 : ℚ) < (ps : ℚ) := by exact_mod_cast hps
  have h1 := Nat.div_add_mod (t + ps - 1) ps
  have h2 := Nat.mod_lt (t + ps - 1) hps
  set q := (t + ps - 1) / ps with hq
  set m := (t + ps - 1) % ps with hm
  have hA : t ≤ ps * q := by
    set P := ps * q with hP
    omega
  have hB : ps * q < t + ps := by
    set P := ps * q with hP
    omega
  symm
  rw [Int.ceil_eq_iff]
  constructor
  · have hB' : (ps : ℚ) * q < t + ps := by exact_mod_cast hB
    rw [lt_div_iff₀ hps']
    push_cast
    nlinarith [hB']
  · have hA' : (t : ℚ) ≤ ps * q := by exact_mod_cast hA
    rw [div_le_iff₀ hps']
    push_cast
    nlinarith [hA']

theorem get_data_length (page page_size t : Nat) (now : PyDateTime) (r : Rng) :
    (get_data page page_size t now r).1.data.length =
      min ((page - 1) * page_size + page_size) t - (page - 1) * page_size := by
  rw [get_data_data, genList_length, List.length_range']

theorem get_dwdf_length (page page_size t : Nat) (now : PyDateTime) (tz : Int)
    (r : Rng) :
    (get_data_with_date_formats page page_size t now tz r).1.data.length =
      min ((page - 1) * page_size + page_size) t - (page - 1) * page_size := by
  rw [get_dwdf_data, genList_length, List.length_range']

/-- The Nat slice length equals the claim's integer form
`min(page_size, max(0, total - (page-1)*page_size))`. -/
theorem page_slice_length_int (page page_size t : Nat) (hp : 1 ≤ page) :
    ((min ((page - 1) * page_size + page_size) t - (page - 1) * page_size : ℕ) : ℤ) =
      min (page_size : ℤ) (max 0 ((t : ℤ) - ((page : ℤ) - 1) * (page_size : ℤ))) := by
  have hs : (((page - 1) * page_size : ℕ) : ℤ) = ((page : ℤ) - 1) * (page_size : ℤ) := by
    rw [Nat.cast_mul, Nat.cast_sub hp, Nat.cast_one]
  rw [← hs]
  generalize ((page - 1) * page_size : ℕ) = s
  omega

theorem map_add_one_range' (s n : Nat) :
    List.map (fun i => i + 1) (List.range' s n) = List.range' (s + 1) n := by
  have := @List.map_add_range' 1 s n 1
  simpa [Nat.add_comm] using this

theorem get_data_ids (page page_size t : Nat) (now : PyDateTime) (r : Rng) :
    (get_data page page_size t now r).1.data.map DataObject.id =
      List.range' ((page - 1) * page_size + 1)
        (min ((page - 1) * page_size + page_size) t - (page - 1) * page_size) := by
  rw [get_data_data,
    genList_map _ DataObject.id (fun i => i + 1) (fun i rr => rfl),
    map_add_one_range']

theorem get_dwdf_ids (page page_size t : Nat) (now : PyDateTime) (tz : Int) (r : Rng) :
    (get_data_with_date_formats page page_size t now tz r).1.data.map
        DataObjectWithDifferentDates.id =
      List.range' ((page - 1) * page_size + 1)
        (min ((page - 1) * page_size + page_size) t - (page - 1) * page_size) := by
  rw [get_dwdf_data,
    genList_map _ DataObjectWithDifferentDates.id (fun i => i + 1) (fun i rr => rfl),
    map_add_one_range']

/-- A sample `datetime.now()` value for concrete instantiations. -/
def sampleNow : PyDateTime := ⟨2024, 1, 1, 12, 0, 0, 0⟩

/-- A concrete all-zero random stream for concrete instantiations. -/
def zeroRng : Rng := fun _ => 0

/-- C1: for every valid input triple (`page ≥ 1`, `page_size ∈ [1,100]`,
`total_records ∈ [1,10000]`), both paginated endpoints return an envelope
with `total_pages = ceil(total_records / page_size)` and a data list of
length `min(page_size, max(0, total_records - (page-1)*page_size))`. -/
theorem C1_envelope_arithmetic (page page_size total_records : Nat)
    (now : PyDateTime) (tz : Int) (r r' : Rng)
    (hp : 1 ≤ page) (hps1 : 1 ≤ page_size) (hps2 : page_size ≤ 100)
    (ht1 : 1 ≤ total_records) (ht2 : total_records ≤ 10000) :
    (((get_data page page_size total_records now r).1.total_pages : ℤ) =
        ⌈(total_records : ℚ) / (page_size : ℚ)⌉ ∧
      ((get_data page page_size total_records now r).1.data.length : ℤ) =
        min (page_size : ℤ)
          (max 0 ((total_records : ℤ) - ((page : ℤ) - 1) * (page_size : ℤ)))) ∧
    (((get_data_with_date_formats page page_size total_records now tz r').1.total_pages : ℤ) =
        ⌈(total_records : ℚ) / (page_size : ℚ)⌉ ∧
      ((get_data_with_date_formats page page_size total_records now tz r').1.data.length : ℤ) =
        min (page_size : ℤ)
          (max 0 ((total_records : ℤ) - ((page : ℤ) - 1) * (page_size : ℤ)))) := by
  refine ⟨⟨?_, ?_⟩, ?_, ?_⟩
  · rw [get_data_total_pages]; exact natCeilDiv_eq_rat_ceil _ _ hps1
  · rw [get_data_length]; exact page_slice_length_int _ _ _ hp
  · rw [get_dwdf_total_pages]; exact natCeilDiv_eq_rat_ceil _ _ hps1
  · rw [get_dwdf_length]; exact page_slice_length_int _ _ _ hp

theorem C1_envelope_arithmetic_witness :
    (1 ≤ (1 : Nat)) ∧
    ((((get_data 1 3 10 sampleNow zeroRng).1.total_pages : ℤ) =
        ⌈(10 : ℚ) / (3 : ℚ)⌉ ∧
      ((get_data 1 3 10 sampleNow zeroRng).1.data.length : ℤ) =
        min (3 : ℤ) (max 0 ((10 : ℤ) - ((1 : ℤ) - 1) * (3 : ℤ)))) ∧
    (((get_data_with_date_formats 1 3 10 sampleNow 0 zeroRng).1.total_pages : ℤ) =
        ⌈(10 : ℚ) / (3 : ℚ)⌉ ∧
      ((get_data_with_date_formats 1 3 10 sampleNow 0 zeroRng).1.data.length : ℤ) =
        min (3 : ℤ) (max 0 ((10 : ℤ) - ((1 : ℤ) - 1) * (3 : ℤ))))) :=
  ⟨by decide, by
    have h := C1_envelope_arithmetic 1 3 10 sampleNow 0 zeroRng zeroRng
      (by decide) (by decide) (by decide) (by decide) (by decide)
    exact_mod_cast h⟩

/-- C2: for every valid input combination (including `page` beyond
`total_pages`), both envelopes satisfy `has_previous = (page > 1)` and
`has_next = (page < total_pages)`. -/
theorem C2_flags (page page_size total_records : Nat) (now : PyDateTime) (tz : Int)
    (r r' : Rng) (hp : 1 ≤ page) (hps1 : 1 ≤ page_size) (hps2 : page_size ≤ 100)
    (ht1 : 1 ≤ total_records) (ht2 : total_records ≤ 10000) :
    ((get_data page page_size total_records now r).1.has_previous =
        decide (page > 1) ∧
      (get_data page page_size total_records now r).1.has_next =
        decide (page < (get_data page page_size total_records now r).1.total_pages)) ∧
    ((get_data_with_date_formats page page_size total_records now tz r').1.has_previous =
        decide (page > 1) ∧
      (get_data_with_date_formats page page_size total_records now tz r').1.has_next =
        decide (page <
          (get_data_with_date_formats page page_size total_records now tz r').1.total_pages)) :=
  ⟨⟨rfl, rfl⟩, rfl, rfl⟩

theorem C2_flags_witness :
    (1 ≤ (7 : Nat)) ∧
    (((get_data 7 3 10 sampleNow zeroRng).1.has_previous = decide ((7 : Nat) > 1) ∧
      (get_data 7 3 10 sampleNow zeroRng).1.has_next =
        decide (7 < (get_data 7 3 10 sampleNow zeroRng).1.total_pages)) ∧
    ((get_data_with_date_formats 7 3 10 sampleNow 0 zeroRng).1.has_previous =
        decide ((7 : Nat) > 1) ∧
      (get_data_with_date_formats 7 3 10 sampleNow 0 zeroRng).1.has_next =
        decide (7 <
          (get_data_with_date_formats 7 3 10 sampleNow 0 zeroRng).1.total_pages))) :=
  ⟨by decide, C2_flags 7 3 10 sampleNow 0 zeroRng zeroRng
    (by decide) (by decide) (by decide) (by decide) (by decide)⟩

theorem pred_mul_add (page page_size : Nat) (hp : 1 ≤ page) :
    (page - 1) * page_size + page_size = page * page_size := by
  obtain ⟨p, rfl⟩ : ∃ p, page = p + 1 := ⟨page - 1, by omega⟩
  simp [Nat.succ_mul]

/-- C3: for every valid input triple, the identities of the records of the
returned page are exactly the contiguous ascending run
`(page-1)*page_size+1 .. min(page*page_size, total_records)`, and the record
at zero-based position `k` has id `(page-1)*page_size + k + 1` (both
endpoints). -/
theorem C3_page_identities (page page_size total_records : Nat)
    (now : PyDateTime) (tz : Int) (r r' : Rng)
    (hp : 1 ≤ page) (hps1 : 1 ≤ page_size) (hps2 : page_size ≤ 100)
    (ht1 : 1 ≤ total_records) (ht2 : total_records ≤ 10000) :
    ((get_data page page_size total_records now r).1.data.map DataObject.id =
        List.range' ((page - 1) * page_size + 1)
          (min (page * page_size) total_records - (page - 1) * page_size) ∧
      ∀ k (hk : k < (get_data page page_size total_records now r).1.data.length),
        ((get_data page page_size total_records now r).1.data[k]).id =
          (page - 1) * page_size + k + 1) ∧
    ((get_data_with_date_formats page page_size total_records now tz r').1.data.map
          DataObjectWithDifferentDates.id =
        List.range' ((page - 1) * page_size + 1)
          (min (page * page_size) total_records - (page - 1) * page_size) ∧
      ∀ k (hk : k <
          (get_data_with_date_formats page page_size total_records now tz r').1.data.length),
        ((get_data_with_date_formats page page_size total_records now tz r').1.data[k]).id =
          (page - 1) * page_size + k + 1) := by
  have hmul := pred_mul_add page page_size hp
  refine ⟨⟨?_, ?_⟩, ?_, ?_⟩
  · rw [get_data_ids, hmul]
  · intro k hk
    have hmap := get_data_ids page page_size total_records now r
    have hk' : k < ((get_data page page_size total_records now r).1.data.map
        DataObject.id).length := by simpa using hk
    have h2 := List.getElem_of_eq hmap hk'
    rw [List.getElem_map] at h2
    rw [h2, List.getElem_range']
    omega
  · rw [get_dwdf_ids, hmul]
  · intro k hk
    have hmap := get_dwdf_ids page page_size total_records now tz r'
    have hk' : k < ((get_data_with_date_formats page page_size total_records
        now tz r').1.data.map DataObjectWithDifferentDates.id).length := by simpa using hk
    have h2 := List.getElem_of_eq hmap hk'
    rw [List.getElem_map] at h2
    rw [h2, List.getElem_range']
    omega

theorem C3_page_identities_witness :
    (1 ≤ (2 : Nat)) ∧
    (((get_data 2 3 10 sampleNow zeroRng).1.data.map DataObject.id =
        List.range' ((2 - 1) * 3 + 1) (min (2 * 3) 10 - (2 - 1) * 3) ∧
      ∀ k (hk : k < (get_data 2 3 10 sampleNow zeroRng).1.data.length),
        ((get_data 2 3 10 sampleNow zeroRng).1.data[k]).id = (2 - 1) * 3 + k + 1) ∧
    ((get_data_with_date_formats 2 3 10 sampleNow 0 zeroRng).1.data.map
          DataObjectWithDifferentDates.id =
        List.range' ((2 - 1) * 3 + 1) (min (2 * 3) 10 - (2 - 1) * 3) ∧
      ∀ k (hk : k < (get_data_with_date_formats 2 3 10 sampleNow 0 zeroRng).1.data.length),
        ((get_data_with_date_formats 2 3 10 sampleNow 0 zeroRng).1.data[k]).id =
          (2 - 1) * 3 + k + 1)) :=
  ⟨by decide, C3_page_identities 2 3 10 sampleNow 0 zeroRng zeroRng
    (by decide) (by decide) (by decide) (by decide) (by decide)⟩

/-- C4: for every valid input triple with `(page-1)*page_size ≥
total_records` (page past the end), both endpoints succeed with an empty
data list and an otherwise fully populated envelope. -/
theorem C4_page_past_end (page page_size total_records : Nat)
    (now : PyDateTime) (tz : Int) (r r' : Rng)
    (hp : 1 ≤ page) (hps1 : 1 ≤ page_size) (hps2 : page_size ≤ 100)
    (ht1 : 1 ≤ total_records) (ht2 : total_records ≤ 10000)
    (hpast : total_records ≤ (page - 1) * page_size) :
    ((get_data page page_size total_records now r).1.data = [] ∧
      (get_data page page_size total_records now r).1.total = total_records ∧
      (get_data page page_size total_records now r).1.page = page ∧
      (get_data page page_size total_records now r).1.page_size = page_size ∧
      ((get_data page page_size total_records now r).1.total_pages : ℤ) =
        ⌈(total_records : ℚ) / (page_size : ℚ)⌉ ∧
      (get_data page page_size total_records now r).1.has_next =
        decide (page < (get_data page page_size total_records now r).1.total_pages) ∧
      (get_data page page_size total_records now r).1.has_previous =
        decide (page > 1)) ∧
    ((get_data_with_date_formats page page_size total_records now tz r').1.data = [] ∧
      (get_data_with_date_formats page page_size total_records now tz r').1.total =
        total_records ∧
      (get_data_with_date_formats page page_size total_records now tz r').1.page = page ∧
      (get_data_with_date_formats page page_size total_records now tz r').1.page_size =
        page_size ∧
      ((get_data_with_date_formats page page_size total_records now tz r').1.total_pages : ℤ) =
        ⌈(total_records : ℚ) / (page_size : ℚ)⌉ ∧
      (get_data_with_date_formats page page_size total_records now tz r').1.has_next =
        decide (page <
          (get_data_with_date_formats page page_size total_records now tz r').1.total_pages) ∧
      (get_data_with_date_formats page page_size total_records now tz r').1.has_previous =
        decide (page > 1)) := by
  refine ⟨⟨?_, rfl, rfl, rfl, ?_, rfl, rfl⟩, ?_, rfl, rfl, rfl, ?_, rfl, rfl⟩
  · apply List.eq_nil_of_length_eq_zero
    rw [get_data_length]
    omega
  · rw [get_data_total_pages]; exact natCeilDiv_eq_rat_ceil _ _ hps1
  · apply List.eq_nil_of_length_eq_zero
    rw [get_dwdf_length]
    omega
  · rw [get_dwdf_total_pages]; exact natCeilDiv_eq_rat_ceil _ _ hps1

theorem C4_page_past_end_witness :
    (10 ≤ (5 - 1) * 3) ∧
    (((get_data 5 3 10 sampleNow zeroRng).1.data = [] ∧
      (get_data 5 3 10 sampleNow zeroRng).1.total = 10 ∧
      (get_data 5 3 10 sampleNow zeroRng).1.page = 5 ∧
      (get_data 5 3 10 sampleNow zeroRng).1.page_size = 3 ∧
      ((get_data 5 3 10 sampleNow zeroRng).1.total_pages : ℤ) =
        ⌈(10 : ℚ) / (3 : ℚ)⌉ ∧
      (get_data 5 3 10 sampleNow zeroRng).1.has_next =
        decide (5 < (get_data 5 3 10 sampleNow zeroRng).1.total_pages) ∧
      (get_data 5 3 10 sampleNow zeroRng).1.has_previous = decide ((5 : Nat) > 1)) ∧
    ((get_data_with_date_formats 5 3 10 sampleNow 0 zeroRng).1.data = [] ∧
      (get_data_with_date_formats 5 3 10 sampleNow 0 zeroRng).1.total = 10 ∧
      (get_data_with_date_formats 5 3 10 sampleNow 0 zeroRng).1.page = 5 ∧
      (get_data_with_date_formats 5 3 10 sampleNow 0 zeroRng).1.page_size = 3 ∧
      ((get_data_with_date_formats 5 3 10 sampleNow 0 zeroRng).1.total_pages : ℤ) =
        ⌈(10 : ℚ) / (3 : ℚ)⌉ ∧
      (get_data_with_date_formats 5 3 10 sampleNow 0 zeroRng).1.has_next =
        decide (5 <
          (get_data_with_date_formats 5 3 10 sampleNow 0 zeroRng).1.total_pages) ∧
      (get_data_with_date_formats 5 3 10 sampleNow 0 zeroRng).1.has_previous =
        decide ((5 : Nat) > 1))) :=
  ⟨by decide, C4_page_past_end 5 3 10 sampleNow 0 zeroRng zeroRng
    (by decide) (by decide) (by decide) (by decide) (by decide) (by decide)⟩

/-- C7: the pagination planning is a pure, deterministic function of its
three inputs: two invocations of either endpoint with the same `(page,
page_size, total_records)` — whatever the randomness source and clock
produce — agree on `total`, `page`, `page_size`, `total_pages`, `has_next`,
`has_previous`, the data-list length and the sequence of record ids. -/
theorem C7_planning_deterministic (page page_size total_records : Nat)
    (now1 now2 : PyDateTime) (tz1 tz2 : Int) (r1 r2 : Rng) :
    ((get_data page page_size total_records now1 r1).1.total =
        (get_data page page_size total_records now2 r2).1.total ∧
      (get_data page page_size total_records now1 r1).1.page =
        (get_data page page_size total_records now2 r2).1.page ∧
      (get_data page page_size total_records now1 r1).1.page_size =
        (get_data page page_size total_records now2 r2).1.page_size ∧
      (get_data page page_size total_records now1 r1).1.total_pages =
        (get_data page page_size total_records now2 r2).1.total_pages ∧
      (get_data page page_size total_records now1 r1).1.has_next =
        (get_data page page_size total_records now2 r2).1.has_next ∧
      (get_data page page_size total_records now1 r1).1.has_previous =
        (get_data page page_size total_records now2 r2).1.has_previous ∧
      (get_data page page_size total_records now1 r1).1.data.length =
        (get_data page page_size total_records now2 r2).1.data.length ∧
      (get_data page page_size total_records now1 r1).1.data.map DataObject.id =
        (get_data page page_size total_records now2 r2).1.data.map DataObject.id) ∧
    ((get_data_with_date_formats page page_size total_records now1 tz1 r1).1.data.length =
        (get_data_with_date_formats page page_size total_records now2 tz2 r2).1.data.length ∧
      (get_data_with_date_formats page page_size total_records now1 tz1 r1).1.data.map
          DataObjectWithDifferentDates.id =
        (get_data_with_date_formats page page_size total_records now2 tz2 r2).1.data.map
          DataObjectWithDifferentDates.id) := by
  refine ⟨⟨rfl, rfl, rfl, rfl, rfl, rfl, ?_, ?_⟩, ?_, ?_⟩
  · rw [get_data_length, get_data_length]
  · rw [get_data_ids, get_data_ids]
  · rw [get_dwdf_length, get_dwdf_length]
  · rw [get_dwdf_ids, get_dwdf_ids]

/-- C8: query values violating the declared bounds (`page_size ∉ [1,100]`,
`total_records ∉ [1,10000]`, or `page < 1`) are rejected at the boundary
with HTTP 422; neither route body runs (the random stream is returned
untouched), so the core never receives out-of-range values. -/
theorem C8_boundary_rejects (page page_size total_records : Int)
    (now : PyDateTime) (tz : Int) (r r' : Rng)
    (hbad : page < 1 ∨ page_size < 1 ∨ 100 < page_size ∨
      total_records < 1 ∨ 10000 < total_records) :
    handle_get_data page page_size total_records now r =
      (HttpOutcome.clientError 422, r) ∧
    handle_get_data_with_date_formats page page_size total_records now tz r' =
      (HttpOutcome.clientError 422, r') := by
  have hval : query_params_valid page page_size total_records = false := by
    simp only [query_params_valid, Bool.and_eq_false_iff, decide_eq_false_iff_not, not_le]
    omega
  constructor
  · unfold handle_get_data
    rw [hval]
    rfl
  · unfold handle_get_data_with_date_formats
    rw [hval]
    rfl

theorem C8_boundary_rejects_witness :
    ((0 : Int) < 1 ∨ (101 : Int) < 1 ∨ (100 : Int) < 101 ∨
      (1000 : Int) < 1 ∨ (10000 : Int) < 1000) ∧
    (handle_get_data 0 101 1000 sampleNow zeroRng =
        (HttpOutcome.clientError 422, zeroRng) ∧
      handle_get_data_with_date_formats 0 101 1000 sampleNow 0 zeroRng =
        (HttpOutcome.clientError 422, zeroRng)) :=
  ⟨by decide, C8_boundary_rejects 0 101 1000 sampleNow 0 zeroRng zeroRng (by decide)⟩

/-! ## Tags and skills invariants (claim C6) -/

theorem generate_random_tags_eq (r : Rng) :
    generate_random_tags r = randsample all_tags (randint 1 5 r).1 (randint 1 5 r).2 := rfl

theorem generate_random_tags_spec (r : Rng) :
    1 ≤ (generate_random_tags r).1.length ∧ (generate_random_tags r).1.length ≤ 5 ∧
      (generate_random_tags r).1.Nodup ∧ ∀ x ∈ (generate_random_tags r).1, x ∈ all_tags := by
  rw [generate_random_tags_eq]
  have h1 : 1 ≤ (randint 1 5 r).1 := randint_ge _ _ _
  have h2 : (randint 1 5 r).1 ≤ 5 := randint_le (by omega) _
  have hlen : ((randsample all_tags (randint 1 5 r).1 (randint 1 5 r).2).1).length =
      (randint 1 5 r).1 := by
    apply randsample_length
    have : all_tags.length = 14 := by decide
    omega
  refine ⟨by omega, by omega, randsample_nodup _ _ _ (by decide), randsample_subset _ _ _⟩

theorem metadata_skills_sample (now : PyDateTime) (r : Rng) :
    ∃ k rs, 2 ≤ k ∧ k ≤ 4 ∧
      (generate_random_metadata now r).1.skills = (randsample skillsVocab k rs).1 := by
  refine ⟨(randint 2 4 ((randint 1 20
      ((randchoice locations ((randchoice departments r).2)).2)).2)).1,
    (randint 2 4 ((randint 1 20
      ((randchoice locations ((randchoice departments r).2)).2)).2)).2,
    randint_ge _ _ _, randint_le (by omega) _, rfl⟩

theorem generate_random_metadata_skills_spec (now : PyDateTime) (r : Rng) :
    2 ≤ (generate_random_metadata now r).1.skills.length ∧
      (generate_random_metadata now r).1.skills.length ≤ 4 ∧
      (generate_random_metadata now r).1.skills.Nodup ∧
      ∀ x ∈ (generate_random_metadata now r).1.skills, x ∈ skillsVocab := by
  obtain ⟨k, rs, hk1, hk2, heq⟩ := metadata_skills_sample now r
  rw [heq]
  have hlen : ((randsample skillsVocab k rs).1).length = k := by
    apply randsample_length
    have : skillsVocab.length = 6 := by decide
    omega
  exact ⟨by omega, by omega, randsample_nodup _ _ _ (by decide), randsample_subset _ _ _⟩

theorem generate_data_object_tags_metadata (id : Nat) (now : PyDateTime) (r : Rng) :
    ∃ rt, (generate_data_object id now r).1.tags = (generate_random_tags rt).1 ∧
      (generate_data_object id now r).1.metadata =
        (generate_random_metadata now ((generate_random_tags rt).2)).1 :=
  ⟨(genBirthDate ((randuniform 0 100000 ((randchoice [true, false]
      ((randuniform 45 120 ((randuniform 150 200 ((randint 18 80
      ((generate_random_email ((generate_random_string 6
      ((uuid4 r).2)).2)).2)).2)).2)).2)).2)).2)).2, rfl, rfl⟩

theorem gdowdd_tags_metadata (id : Nat) (now : PyDateTime) (tz : Int) (r : Rng) :
    ∃ rt, (generate_data_object_with_different_dates id now tz r).1.tags =
        (generate_random_tags rt).1 ∧
      (generate_data_object_with_different_dates id now tz r).1.metadata =
        (generate_random_metadata now ((generate_random_tags rt).2)).1 :=
  ⟨(randuniform 0 100000 ((randchoice [true, false] ((randuniform 45 120
      ((randuniform 150 200 ((randint 18 80 ((generate_random_email
      ((generate_random_string 6 ((uuid4 ((genCreatedDateTime now
      ((genBirthDate r).2)).2)).2)).2)).2)).2)).2)).2)).2)).2, rfl, rfl⟩

/-- C6: every record of either synthesizer has a duplicate-free `tags` list
of length 1..5 drawn from the fixed 14-entry vocabulary, and a
duplicate-free `metadata.skills` list of length 2..4 drawn from the fixed
6-entry vocabulary. -/
theorem C6_tags_and_skills (id : Nat) (now : PyDateTime) (tz : Int) (r r' : Rng)
    (hid : 1 ≤ id) :
    (1 ≤ (generate_data_object id now r).1.tags.length ∧
      (generate_data_object id now r).1.tags.length ≤ 5 ∧
      (generate_data_object id now r).1.tags.Nodup ∧
      (∀ x ∈ (generate_data_object id now r).1.tags, x ∈ all_tags) ∧
      all_tags.length = 14 ∧
      2 ≤ (generate_data_object id now r).1.metadata.skills.length ∧
      (generate_data_object id now r).1.metadata.skills.length ≤ 4 ∧
      (generate_data_object id now r).1.metadata.skills.Nodup ∧
      (∀ x ∈ (generate_data_object id now r).1.metadata.skills, x ∈ skillsVocab) ∧
      skillsVocab.length = 6) ∧
    (1 ≤ (generate_data_object_with_different_dates id now tz r').1.tags.length ∧
      (generate_data_object_with_different_dates id now tz r').1.tags.length ≤ 5 ∧
      (generate_data_object_with_different_dates id now tz r').1.tags.Nodup ∧
      (∀ x ∈ (generate_data_object_with_different_dates id now tz r').1.tags,
        x ∈ all_tags) ∧
      2 ≤ (generate_data_object_with_different_dates id now tz r').1.metadata.skills.length ∧
      (generate_data_object_with_different_dates id now tz r').1.metadata.skills.length ≤ 4 ∧
      (generate_data_object_with_different_dates id now tz r').1.metadata.skills.Nodup ∧
      ∀ x ∈ (generate_data_object_with_different_dates id now tz r').1.metadata.skills,
        x ∈ skillsVocab) := by
  obtain ⟨rt, htags, hmd⟩ := generate_data_object_tags_metadata id now r
  obtain ⟨rt', htags', hmd'⟩ := gdowdd_tags_metadata id now tz r'
  rw [htags, hmd, htags', hmd']
  obtain ⟨a1, a2, a3, a4⟩ := generate_random_tags_spec rt
  obtain ⟨b1, b2, b3, b4⟩ :=
    generate_random_metadata_skills_spec now ((generate_random_tags rt).2)
  obtain ⟨c1, c2, c3, c4⟩ := generate_random_tags_spec rt'
  obtain ⟨d1, d2, d3, d4⟩ :=
    generate_random_metadata_skills_spec now ((generate_random_tags rt').2)
  exact ⟨⟨a1, a2, a3, a4, by decide, b1, b2, b3, b4, by decide⟩,
    c1, c2, c3, c4, d1, d2, d3, d4⟩

theorem C6_tags_and_skills_witness :
    (1 ≤ (1 : Nat)) ∧
    ((1 ≤ (generate_data_object 1 sampleNow zeroRng).1.tags.length ∧
      (generate_data_object 1 sampleNow zeroRng).1.tags.length ≤ 5 ∧
      (generate_data_object 1 sampleNow zeroRng).1.tags.Nodup ∧
      (∀ x ∈ (generate_data_object 1 sampleNow zeroRng).1.tags, x ∈ all_tags) ∧
      all_tags.length = 14 ∧
      2 ≤ (generate_data_object 1 sampleNow zeroRng).1.metadata.skills.length ∧
      (generate_data_object 1 sampleNow zeroRng).1.metadata.skills.length ≤ 4 ∧
      (generate_data_object 1 sampleNow zeroRng).1.metadata.skills.Nodup ∧
      (∀ x ∈ (generate_data_object 1 sampleNow zeroRng).1.metadata.skills,
        x ∈ skillsVocab) ∧
      skillsVocab.length = 6) ∧
    (1 ≤ (generate_data_object_with_different_dates 1 sampleNow 0 zeroRng).1.tags.length ∧
      (generate_data_object_with_different_dates 1 sampleNow 0 zeroRng).1.tags.length ≤ 5 ∧
      (generate_data_object_with_different_dates 1 sampleNow 0 zeroRng).1.tags.Nodup ∧
      (∀ x ∈ (generate_data_object_with_different_dates 1 sampleNow 0 zeroRng).1.tags,
        x ∈ all_tags) ∧
      2 ≤ (generate_data_object_with_different_dates 1 sampleNow 0
        zeroRng).1.metadata.skills.length ∧
      (generate_data_object_with_different_dates 1 sampleNow 0
        zeroRng).1.metadata.skills.length ≤ 4 ∧
      (generate_data_object_with_different_dates 1 sampleNow 0
        zeroRng).1.metadata.skills.Nodup ∧
      ∀ x ∈ (generate_data_object_with_different_dates 1 sampleNow 0
        zeroRng).1.metadata.skills, x ∈ skillsVocab)) :=
  ⟨by decide, C6_tags_and_skills 1 sampleNow 0 zeroRng zeroRng (by decide)⟩

/-! ## Validity of the generated dates (claim C9) -/

theorem daysInMonth_ge (y m : Nat) : 28 ≤ daysInMonth y m := by
  unfold daysInMonth
  split_ifs <;> omega

theorem genBirthDate_fields (r : Rng) :
    (genBirthDate r).1.year = (randint 1940 2005 r).1 ∧
    (genBirthDate r).1.month = (randint 1 12 ((randint 1940 2005 r).2)).1 ∧
    (genBirthDate r).1.day =
      (randint 1 28 ((randint 1 12 ((randint 1940 2005 r).2)).2)).1 :=
  ⟨rfl, rfl, rfl⟩

theorem genBirthDate_bounds (r : Rng) :
    1940 ≤ (genBirthDate r).1.year ∧ (genBirthDate r).1.year ≤ 2005 ∧
    1 ≤ (genBirthDate r).1.month ∧ (genBirthDate r).1.month ≤ 12 ∧
    1 ≤ (genBirthDate r).1.day ∧ (genBirthDate r).1.day ≤ 28 := by
  obtain ⟨h1, h2, h3⟩ := genBirthDate_fields r
  rw [h1, h2, h3]
  exact ⟨randint_ge _ _ _, randint_le (by omega) _, randint_ge _ _ _,
    randint_le (by omega) _, randint_ge _ _ _, randint_le (by omega) _⟩

theorem genBirthDate_isValid (r : Rng) : ((genBirthDate r).1).isValid = true := by
  obtain ⟨h1, h2, h3, h4, h5, h6⟩ := genBirthDate_bounds r
  have hd := daysInMonth_ge (genBirthDate r).1.year (genBirthDate r).1.month
  simp only [PyDate.isValid, Bool.and_eq_true, decide_eq_true_eq]
  omega

theorem genCreatedDateTime_fields (now : PyDateTime) (r : Rng) :
    (genCreatedDateTime now r).1.year = (randint 2020 2024 r).1 ∧
    (genCreatedDateTime now r).1.month =
      (randint 1 12 ((randint 2020 2024 r).2)).1 ∧
    (genCreatedDateTime now r).1.day =
      (randint 1 28 ((randint 1 12 ((randint 2020 2024 r).2)).2)).1 ∧
    (genCreatedDateTime now r).1.hour =
      (randint 0 23 ((randint 1 28 ((randint 1 12 ((randint 2020 2024 r).2)).2)).2)).1 ∧
    (genCreatedDateTime now r).1.minute =
      (randint 0 59 ((randint 0 23 ((randint 1 28 ((randint 1 12
        ((randint 2020 2024 r).2)).2)).2)).2)).1 ∧
    (genCreatedDateTime now r).1.second = now.second ∧
    (genCreatedDateTime now r).1.microsecond = now.microsecond :=
  ⟨rfl, rfl, rfl, rfl, rfl, rfl, rfl⟩

theorem genCreatedDateTime_bounds (now : PyDateTime) (r : Rng) :
    2020 ≤ (genCreatedDateTime now r).1.year ∧
    (genCreatedDateTime now r).1.year ≤ 2024 ∧
    1 ≤ (genCreatedDateTime now r).1.month ∧
    (genCreatedDateTime now r).1.month ≤ 12 ∧
    1 ≤ (genCreatedDateTime now r).1.day ∧
    (genCreatedDateTime now r).1.day ≤ 28 ∧
    (genCreatedDateTime now r).1.hour ≤ 23 ∧
    (genCreatedDateTime now r).1.minute ≤ 59 ∧
    (genCreatedDateTime now r).1.second = now.second ∧
    (genCreatedDateTime now r).1.microsecond = now.microsecond := by
  obtain ⟨h1, h2, h3, h4, h5, h6, h7⟩ := genCreatedDateTime_fields now r
  rw [h1, h2, h3, h4, h5, h6, h7]
  exact ⟨randint_ge _ _ _, randint_le (by omega) _, randint_ge _ _ _,
    randint_le (by omega) _, randint_ge _ _ _, randint_le (by omega) _,
    randint_le (by omega) _, randint_le (by omega) _, rfl, rfl⟩

theorem genCreatedDateTime_isValid (now : PyDateTime) (r : Rng)
    (hs : now.second ≤ 59) (hm : now.microsecond ≤ 999999) :
    ((genCreatedDateTime now r).1).isValid = true := by
  obtain ⟨h1, h2, h3, h4, h5, h6, h7, h8, h9, h10⟩ := genCreatedDateTime_bounds now r
  have hd := daysInMonth_ge (genCreatedDateTime now r).1.year
    (genCreatedDateTime now r).1.month
  simp only [PyDateTime.isValid, PyDate.isValid, Bool.and_eq_true, decide_eq_true_eq]
  omega

/-- C9: both synthesizers are total over identities `≥ 1`: the birth date
they construct is always a valid calendar date (year 1940..2005, month
1..12, day 1..28), the multi-date variant's partial field replacement of
the current datetime always yields a valid datetime, and those are exactly
the date values embedded in the returned records. -/
theorem C9_synthesizers_total (id : Nat) (now : PyDateTime) (tz : Int) (r : Rng)
    (hid : 1 ≤ id) (hnow : now.isValid = true) :
    (∀ rb : Rng, ((genBirthDate rb).1).isValid = true ∧
      1940 ≤ (genBirthDate rb).1.year ∧ (genBirthDate rb).1.year ≤ 2005 ∧
      1 ≤ (genBirthDate rb).1.month ∧ (genBirthDate rb).1.month ≤ 12 ∧
      1 ≤ (genBirthDate rb).1.day ∧ (genBirthDate rb).1.day ≤ 28) ∧
    (∀ rc : Rng, ((genCreatedDateTime now rc).1).isValid = true ∧
      2020 ≤ (genCreatedDateTime now rc).1.year ∧
      (genCreatedDateTime now rc).1.year ≤ 2024 ∧
      1 ≤ (genCreatedDateTime now rc).1.month ∧
      (genCreatedDateTime now rc).1.month ≤ 12 ∧
      1 ≤ (genCreatedDateTime now rc).1.day ∧
      (genCreatedDateTime now rc).1.day ≤ 28 ∧
      (genCreatedDateTime now rc).1.hour ≤ 23 ∧
      (genCreatedDateTime now rc).1.minute ≤ 59) ∧
    (∃ rb, (generate_data_object id now r).1.birth_date =
      ((genBirthDate rb).1).isoformat) ∧
    (∃ rb, (generate_data_object_with_different_dates id now tz r).1.birth_date_iso =
      ((genBirthDate rb).1).isoformat) ∧
    (∃ rc, (generate_data_object_with_different_dates id now tz r).1.created_at_iso =
      ((genCreatedDateTime now rc).1).isoformat) := by
  have hnow' : now.second ≤ 59 ∧ now.microsecond ≤ 999999 := by
    simp only [PyDateTime.isValid, PyDate.isValid, Bool.and_eq_true,
      decide_eq_true_eq] at hnow
    omega
  refine ⟨?_, ?_, ?_, ?_, ?_⟩
  · intro rb
    obtain ⟨h1, h2, h3, h4, h5, h6⟩ := genBirthDate_bounds rb
    exact ⟨genBirthDate_isValid rb, h1, h2, h3, h4, h5, h6⟩
  · intro rc
    obtain ⟨h1, h2, h3, h4, h5, h6, h7, h8, h9, h10⟩ := genCreatedDateTime_bounds now rc
    exact ⟨genCreatedDateTime_isValid now rc hnow'.1 hnow'.2,
      h1, h2, h3, h4, h5, h6, h7, h8⟩
  · exact ⟨(randuniform 0 100000 ((randchoice [true, false] ((randuniform 45 120
      ((randuniform 150 200 ((randint 18 80 ((generate_random_email
      ((generate_random_string 6 ((uuid4 r).2)).2)).2)).2)).2)).2)).2)).2, rfl⟩
  · exact ⟨r, rfl⟩
  · exact ⟨(genBirthDate r).2, rfl⟩

theorem C9_synthesizers_total_witness :
    ((1 ≤ (1 : Nat)) ∧ sampleNow.isValid = true) ∧
    ((∀ rb : Rng, ((genBirthDate rb).1).isValid = true ∧
      1940 ≤ (genBirthDate rb).1.year ∧ (genBirthDate rb).1.year ≤ 2005 ∧
      1 ≤ (genBirthDate rb).1.month ∧ (genBirthDate rb).1.month ≤ 12 ∧
      1 ≤ (genBirthDate rb).1.day ∧ (genBirthDate rb).1.day ≤ 28) ∧
    (∀ rc : Rng, ((genCreatedDateTime sampleNow rc).1).isValid = true ∧
      2020 ≤ (genCreatedDateTime sampleNow rc).1.year ∧
      (genCreatedDateTime sampleNow rc).1.year ≤ 2024 ∧
      1 ≤ (genCreatedDateTime sampleNow rc).1.month ∧
      (genCreatedDateTime sampleNow rc).1.month ≤ 12 ∧
      1 ≤ (genCreatedDateTime sampleNow rc).1.day ∧
      (genCreatedDateTime sampleNow rc).1.day ≤ 28 ∧
      (genCreatedDateTime sampleNow rc).1.hour ≤ 23 ∧
      (genCreatedDateTime sampleNow rc).1.minute ≤ 59) ∧
    (∃ rb, (generate_data_object 1 sampleNow zeroRng).1.birth_date =
      ((genBirthDate rb).1).isoformat) ∧
    (∃ rb, (generate_data_object_with_different_dates 1 sampleNow 0
        zeroRng).1.birth_date_iso = ((genBirthDate rb).1).isoformat) ∧
    (∃ rc, (generate_data_object_with_different_dates 1 sampleNow 0
        zeroRng).1.created_at_iso = ((genCreatedDateTime sampleNow rc).1).isoformat)) :=
  ⟨⟨by decide, by decide⟩,
    C9_synthesizers_total 1 sampleNow 0 zeroRng (by decide) (by decide)⟩

/-! ## Schema conformance of the standard record (claim C10) -/

theorem generate_data_object_age (id : Nat) (now : PyDateTime) (r : Rng) :
    ∃ ra, (generate_data_object id now r).1.age = (randint 18 80 ra).1 :=
  ⟨(generate_random_email ((generate_random_string 6 ((uuid4 r).2)).2)).2, rfl⟩

/-- C10: every standard record conforms to the `/api/schema` document: each
of the 13 `required` fields is present with a non-null value, the generated
age lies in the schema's `[0,150]` bounds (indeed in `[18,80]`), and the
two properties omitted from `required` — `score` and `description` — are
the only fields whose value can be JSON `null`. -/
theorem C10_schema_conformance (id : Nat) (now : PyDateTime) (r : Rng)
    (hid : 1 ≤ id) :
    (∀ name ∈ schema_required,
      ∃ v, ((generate_data_object id now r).1.toJson.lookup name) = some v ∧
        v ≠ JValue.null) ∧
    schema_required.length = 13 ∧
    schema_property_names.filter (fun n => !(schema_required.contains n)) =
      ["score", "description"] ∧
    (schema_age_minimum ≤ (generate_data_object id now r).1.age ∧
      (generate_data_object id now r).1.age ≤ schema_age_maximum ∧
      18 ≤ (generate_data_object id now r).1.age ∧
      (generate_data_object id now r).1.age ≤ 80) ∧
    (∀ name v, (name, v) ∈ (generate_data_object id now r).1.toJson →
      v = JValue.null → name = "score" ∨ name = "description") := by
  refine ⟨?_, by decide, by decide, ?_, ?_⟩
  · intro name hname
    fin_cases hname
    all_goals exact ⟨_, rfl, by simp [Metadata.toJson]⟩
  · obtain ⟨ra, hage⟩ := generate_data_object_age id now r
    have h1 : 18 ≤ (randint 18 80 ra).1 := randint_ge _ _ _
    have h2 : (randint 18 80 ra).1 ≤ 80 := randint_le (by omega) _
    rw [hage]
    refine ⟨by simp [schema_age_minimum], by simp [schema_age_maximum]; omega, h1, h2⟩
  · intro name v hm hn
    fin_cases hm <;>
      first
        | (left; rfl)
        | (right; rfl)
        | (exfalso; simp [Metadata.toJson] at hn)

theorem C10_schema_conformance_witness :
    (1 ≤ (2 : Nat)) ∧
    ((∀ name ∈ schema_required,
      ∃ v, ((generate_data_object 2 sampleNow zeroRng).1.toJson.lookup name) = some v ∧
        v ≠ JValue.null) ∧
    schema_required.length = 13 ∧
    schema_property_names.filter (fun n => !(schema_required.contains n)) =
      ["score", "description"] ∧
    (schema_age_minimum ≤ (generate_data_object 2 sampleNow zeroRng).1.age ∧
      (generate_data_object 2 sampleNow zeroRng).1.age ≤ schema_age_maximum ∧
      18 ≤ (generate_data_object 2 sampleNow zeroRng).1.age ∧
      (generate_data_object 2 sampleNow zeroRng).1.age ≤ 80) ∧
    (∀ name v, (name, v) ∈ (generate_data_object 2 sampleNow zeroRng).1.toJson →
      v = JValue.null → name = "score" ∨ name = "description")) :=
  ⟨by decide, C10_schema_conformance 2 sampleNow zeroRng (by decide)⟩

/-! ## Roundtrip of the date renderings (claim C5) -/

theorem string_data_mk (l : List Char) : (⟨l⟩ : String).data = l := rfl

theorem string_mk_data (s : String) : (⟨s.data⟩ : String) = s := rfl

theorem digitChar_spec : ∀ k, k < 10 →
    (Nat.digitChar k).isDigit = true ∧ (Nat.digitChar k).toNat - 48 = k := by decide

theorem parseDigit_digitChar {k : Nat} (h : k < 10) (rest : List Char) :
    parseDigit (Nat.digitChar k :: rest) = some (k, rest) := by
  obtain ⟨h1, h2⟩ := digitChar_spec k h
  simp [parseDigit, h1, h2]

theorem parseN_padN (k n : Nat) (rest : List Char) :
    parseN k (padN k n ++ rest) = some (n % 10 ^ k, rest) := by
  induction k generalizing rest with
  | zero => simp [parseN, padN, Nat.mod_one]
  | succ k ih =>
    have hd : n / 10 ^ k % 10 < 10 := Nat.mod_lt _ (by omega)
    simp only [padN, List.cons_append, parseN, parseDigit_digitChar hd, ih,
      Option.bind_eq_bind, Option.some_bind, pure]
    rw [pow_succ, Nat.mod_mul]
    ring_nf

theorem parseLit_cons (c : Char) (rest : List Char) :
    parseLit c (c :: rest) = some rest := by simp [parseLit]

theorem padN_length (k n : Nat) : (padN k n).length = k := by
  induction k with
  | zero => rfl
  | succ k ih => simp [padN, ih]

theorem padN_all_isDigit (k n : Nat) : (padN k n).all Char.isDigit = true := by
  induction k with
  | zero => rfl
  | succ k ih =>
    have hd : n / 10 ^ k % 10 < 10 := Nat.mod_lt _ (by omega)
    simp [padN, ih, (digitChar_spec _ hd).1]

theorem breakAtSpace_append (l rest : List Char) (h : ' ' ∉ l) :
    breakAtSpace (l ++ ' ' :: rest) = some (l, rest) := by
  induction l with
  | nil => simp [breakAtSpace]
  | cons c cs ih =>
    simp only [List.mem_cons, not_or] at h
    have hc : ¬(c = ' ') := fun heq => h.1 heq.symm
    simp [breakAtSpace, hc, ih h.2]

theorem decodeIsoDate_isoformat (d : PyDate) (hy : d.year ≤ 9999)
    (hm : d.month ≤ 99) (hd : d.day ≤ 99) :
    decodeIsoDate d.isoformat = some d := by
  have h4 : d.year % 10 ^ 4 = d.year := Nat.mod_eq_of_lt (by omega)
  have h2 : d.month % 10 ^ 2 = d.month := Nat.mod_eq_of_lt (by omega)
  have h2' : d.day % 10 ^ 2 = d.day := Nat.mod_eq_of_lt (by omega)
  simp only [decodeIsoDate, PyDate.isoformat, string_data_mk, List.append_assoc,
    List.cons_append]
  rw [← List.append_nil (padN 2 d.day)]
  simp only [Option.bind_eq_bind, Option.some_bind, parseLit_cons, parseN_padN,
    h4, h2, h2']
  rfl

theorem decodeUsDate_usFormat (d : PyDate) (hy : d.year ≤ 9999)
    (hm : d.month ≤ 99) (hd : d.day ≤ 99) :
    decodeUsDate d.usFormat = some d := by
  have h4 : d.year % 10 ^ 4 = d.year := Nat.mod_eq_of_lt (by omega)
  have h2 : d.month % 10 ^ 2 = d.month := Nat.mod_eq_of_lt (by omega)
  have h2' : d.day % 10 ^ 2 = d.day := Nat.mod_eq_of_lt (by omega)
  simp only [decodeUsDate, PyDate.usFormat, string_data_mk, List.append_assoc,
    List.cons_append]
  rw [← List.append_nil (padN 4 d.year)]
  simp only [Option.bind_eq_bind, Option.some_bind, parseLit_cons, parseN_padN,
    h4, h2, h2']
  rfl

theorem decodeEuDate_euFormat (d : PyDate) (hy : d.year ≤ 9999)
    (hm : d.month ≤ 99) (hd : d.day ≤ 99) :
    decodeEuDate d.euFormat = some d := by
  have h4 : d.year % 10 ^ 4 = d.year := Nat.mod_eq_of_lt (by omega)
  have h2 : d.month % 10 ^ 2 = d.month := Nat.mod_eq_of_lt (by omega)
  have h2' : d.day % 10 ^ 2 = d.day := Nat.mod_eq_of_lt (by omega)
  simp only [decodeEuDate, PyDate.euFormat, string_data_mk, List.append_assoc,
    List.cons_append]
  rw [← List.append_nil (padN 4 d.year)]
  simp only [Option.bind_eq_bind, Option.some_bind, parseLit_cons, parseN_padN,
    h4, h2, h2']
  rfl

theorem decodeLongDate_generic (y dd idx : Nat) (name : String)
    (hy : y ≤ 9999) (hd : dd ≤ 99) (hsp : ' ' ∉ name.data)
    (hidx : monthNames.indexOf name = idx) (hlt : idx < 12) :
    decodeLongDate ⟨name.data ++ ' ' :: padN 2 dd ++ ',' :: ' ' :: padN 4 y⟩ =
      some ⟨y, idx + 1, dd⟩ := by
  have h4 : y % 10 ^ 4 = y := Nat.mod_eq_of_lt (by omega)
  have h2 : dd % 10 ^ 2 = dd := Nat.mod_eq_of_lt (by omega)
  simp only [decodeLongDate, string_data_mk, List.append_assoc, List.cons_append]
  rw [breakAtSpace_append _ _ hsp]
  rw [← List.append_nil (padN 4 y)]
  simp only [Option.bind_eq_bind, Option.some_bind, string_mk_data, hidx, hlt,
    if_true, parseLit_cons, parseN_padN, h4, h2]
  rfl

theorem decodeLongDate_longFormat (d : PyDate) (hy : d.year ≤ 9999)
    (hd : d.day ≤ 99) (hm1 : 1 ≤ d.month) (hm2 : d.month ≤ 12) :
    decodeLongDate d.longFormat = some d := by
  obtain ⟨y, m, dd⟩ := d
  simp only at hy hd hm1 hm2
  interval_cases m
  · exact decodeLongDate_generic y dd 0 "January" hy hd (by decide) (by decide) (by decide)
  · exact decodeLongDate_generic y dd 1 "February" hy hd (by decide) (by decide) (by decide)
  · exact decodeLongDate_generic y dd 2 "March" hy hd (by decide) (by decide) (by decide)
  · exact decodeLongDate_generic y dd 3 "April" hy hd (by decide) (by decide) (by decide)
  · exact decodeLongDate_generic y dd 4 "May" hy hd (by decide) (by decide) (by decide)
  · exact decodeLongDate_generic y dd 5 "June" hy hd (by decide) (by decide) (by decide)
  · exact decodeLongDate_generic y dd 6 "July" hy hd (by decide) (by decide) (by decide)
  · exact decodeLongDate_generic y dd 7 "August" hy hd (by decide) (by decide) (by decide)
  · exact decodeLongDate_generic y dd 8 "September" hy hd (by decide) (by decide) (by decide)
  · exact decodeLongDate_generic y dd 9 "October" hy hd (by decide) (by decide) (by decide)
  · exact decodeLongDate_generic y dd 10 "November" hy hd (by decide) (by decide) (by decide)
  · exact decodeLongDate_generic y dd 11 "December" hy hd (by decide) (by decide) (by decide)

theorem decodeIsoDateTime_isoformat (dt : PyDateTime) (hy : dt.year ≤ 9999)
    (hm : dt.month ≤ 99) (hd : dt.day ≤ 99) (hh : dt.hour ≤ 99)
    (hmi : dt.minute ≤ 99) (hs : dt.second ≤ 99) (hmicro : dt.microsecond ≤ 999999) :
    decodeIsoDateTime dt.isoformat =
      some ⟨dt.year, dt.month, dt.day, dt.hour, dt.minute, dt.second, 0⟩ := by
  have h4 : dt.year % 10 ^ 4 = dt.year := Nat.mod_eq_of_lt (by omega)
  have hmo : dt.month % 10 ^ 2 = dt.month := Nat.mod_eq_of_lt (by omega)
  have hda : dt.day % 10 ^ 2 = dt.day := Nat.mod_eq_of_lt (by omega)
  have hho : dt.hour % 10 ^ 2 = dt.hour := Nat.mod_eq_of_lt (by omega)
  have hmn : dt.minute % 10 ^ 2 = dt.minute := Nat.mod_eq_of_lt (by omega)
  have hse : dt.second % 10 ^ 2 = dt.second := Nat.mod_eq_of_lt (by omega)
  by_cases hz : dt.microsecond = 0
  · simp only [decodeIsoDateTime, PyDateTime.isoformat, hz, if_pos rfl,
      string_data_mk, List.append_assoc, List.cons_append]
    simp only [Option.bind_eq_bind, Option.some_bind, parseLit_cons, parseN_padN,
      h4, hmo, hda, hho, hmn, hse]
    rfl
  · simp only [decodeIsoDateTime, PyDateTime.isoformat, if_neg hz,
      string_data_mk, List.append_assoc, List.cons_append]
    simp only [Option.bind_eq_bind, Option.some_bind, parseLit_cons, parseN_padN,
      h4, hmo, hda, hho, hmn, hse]
    simp [parseLit_cons, padN_length, padN_all_isDigit]

/-! ## The timestamp and the decoded instant (claim C5, second half) -/

theorem daysBeforeYear_ge (y : Nat) (h : 2020 ≤ y) : 719164 ≤ daysBeforeYear y := by
  unfold daysBeforeYear
  omega

theorem epochSeconds_nonneg (dt : PyDateTime) (tz : Int) (hy : 2020 ≤ dt.year)
    (htz : tz ≤ 86400) : 0 ≤ epochSeconds dt tz := by
  have h1 := daysBeforeYear_ge dt.year hy
  simp only [epochSeconds, toOrdinal]
  omega

theorem timestampInt_eq (dt : PyDateTime) (tz : Int) (h0 : 0 ≤ epochSeconds dt tz)
    (hm : dt.microsecond ≤ 999999) : timestampInt dt tz = epochSeconds dt tz := by
  unfold timestampInt
  rw [Int.tdiv_eq_ediv (by omega) (by norm_num)]
  omega

theorem epochSeconds_zero_micro (dt : PyDateTime) (tz : Int) :
    epochSeconds ⟨dt.year, dt.month, dt.day, dt.hour, dt.minute, dt.second, 0⟩ tz =
      epochSeconds dt tz := rfl

theorem gdowdd_date_fields (id : Nat) (now : PyDateTime) (tz : Int) (r : Rng) :
    (generate_data_object_with_different_dates id now tz r).1.birth_date_iso =
        ((genBirthDate r).1).isoformat ∧
    (generate_data_object_with_different_dates id now tz r).1.birth_date_us =
        ((genBirthDate r).1).usFormat ∧
    (generate_data_object_with_different_dates id now tz r).1.birth_date_eu =
        ((genBirthDate r).1).euFormat ∧
    (generate_data_object_with_different_dates id now tz r).1.birth_date_long =
        ((genBirthDate r).1).longFormat ∧
    (generate_data_object_with_different_dates id now tz r).1.created_at_iso =
        ((genCreatedDateTime now ((genBirthDate r).2)).1).isoformat ∧
    (generate_data_object_with_different_dates id now tz r).1.created_at_timestamp =
        timestampInt ((genCreatedDateTime now ((genBirthDate r).2)).1) tz :=
  ⟨rfl, rfl, rfl, rfl, rfl, rfl⟩

/-- C5: in every multi-date record, the four birth-date renderings decode to
one and the same calendar date, and the ISO created-at rendering decodes (at
second precision) to exactly the instant carried by `created_at_timestamp`. -/
theorem C5_date_renderings_consistent (id : Nat) (now : PyDateTime) (tz : Int)
    (r : Rng) (hid : 1 ≤ id) (hnow : now.isValid = true)
    (htz1 : -86400 ≤ tz) (htz2 : tz ≤ 86400) :
    (∃ d : PyDate,
      decodeIsoDate
        (generate_data_object_with_different_dates id now tz r).1.birth_date_iso =
          some d ∧
      decodeUsDate
        (generate_data_object_with_different_dates id now tz r).1.birth_date_us =
          some d ∧
      decodeEuDate
        (generate_data_object_with_different_dates id now tz r).1.birth_date_eu =
          some d ∧
      decodeLongDate
        (generate_data_object_with_different_dates id now tz r).1.birth_date_long =
          some d) ∧
    (∃ e : Int,
      (decodeIsoDateTime
          (generate_data_object_with_different_dates id now tz r).1.created_at_iso).map
        (fun dt => epochSeconds dt tz) = some e ∧
      (generate_data_object_with_different_dates id now tz r).1.created_at_timestamp =
        e) := by
  obtain ⟨f1, f2, f3, f4, f5, f6⟩ := gdowdd_date_fields id now tz r
  obtain ⟨b1, b2, b3, b4, b5, b6⟩ := genBirthDate_bounds r
  obtain ⟨c1, c2, c3, c4, c5, c6, c7, c8, c9, c10⟩ :=
    genCreatedDateTime_bounds now ((genBirthDate r).2)
  have hnow' : now.second ≤ 59 ∧ now.microsecond ≤ 999999 := by
    simp only [PyDateTime.isValid, PyDate.isValid, Bool.and_eq_true,
      decide_eq_true_eq] at hnow
    omega
  have hsec : ((genCreatedDateTime now ((genBirthDate r).2)).1).second ≤ 99 := by
    omega
  have hmic : ((genCreatedDateTime now ((genBirthDate r).2)).1).microsecond ≤ 999999 := by
    omega
  constructor
  · refine ⟨(genBirthDate r).1, ?_, ?_, ?_, ?_⟩
    · rw [f1]; exact decodeIsoDate_isoformat _ (by omega) (by omega) (by omega)
    · rw [f2]; exact decodeUsDate_usFormat _ (by omega) (by omega) (by omega)
    · rw [f3]; exact decodeEuDate_euFormat _ (by omega) (by omega) (by omega)
    · rw [f4]; exact decodeLongDate_longFormat _ (by omega) (by omega) b3 b4
  · refine ⟨epochSeconds ((genCreatedDateTime now ((genBirthDate r).2)).1) tz, ?_, ?_⟩
    · rw [f5, decodeIsoDateTime_isoformat _ (by omega) (by omega) (by omega)
        (by omega) (by omega) hsec hmic]
      exact congrArg some (epochSeconds_zero_micro _ _)
    · rw [f6]
      exact timestampInt_eq _ _ (epochSeconds_nonneg _ _ c1 htz2) hmic

theorem C5_date_renderings_consistent_witness :
    ((1 ≤ (1 : Nat)) ∧ sampleNow.isValid = true ∧
      (-86400 : Int) ≤ 0 ∧ (0 : Int) ≤ 86400) ∧
    ((∃ d : PyDate,
      decodeIsoDate
        (generate_data_object_with_different_dates 1 sampleNow 0 zeroRng).1.birth_date_iso =
          some d ∧
      decodeUsDate
        (generate_data_object_with_different_dates 1 sampleNow 0 zeroRng).1.birth_date_us =
          some d ∧
      decodeEuDate
        (generate_data_object_with_different_dates 1 sampleNow 0 zeroRng).1.birth_date_eu =
          some d ∧
      decodeLongDate
        (generate_data_object_with_different_dates 1 sampleNow 0 zeroRng).1.birth_date_long =
          some d) ∧
    (∃ e : Int,
      (decodeIsoDateTime
          (generate_data_object_with_different_dates 1 sampleNow 0
            zeroRng).1.created_at_iso).map
        (fun dt => epochSeconds dt 0) = some e ∧
      (generate_data_object_with_different_dates 1 sampleNow 0
        zeroRng).1.created_at_timestamp = e)) :=
  ⟨⟨by decide, by decide, by decide, by decide⟩,
    C5_date_renderings_consistent 1 sampleNow 0 zeroRng
      (by decide) (by decide) (by decide) (by decide)⟩
